import Mathlib

/-!
Verification of the CV_2_DC résumé-extraction engine against its specification.

The Python sources under `app/` are shallowly embedded: strings are `String`/`List Char`,
Python `float` arithmetic on the exact decimal constants of the source is modelled by `ℚ`
(with Python's `round` modelled as round-half-to-even on rationals), `datetime.date` by a
year/month/day triple ordered lexicographically, and `date.today()` by an explicit `today`
parameter.  The regular expressions of the source are small enough to be embedded directly
as word-boundary / substring scanners over lowered character lists; Python's case folding
and `\w` class are modelled for the ASCII range plus the accented letters that actually
occur in the source's patterns and data.
-/

namespace CV2DC

/-- Python `str.lower()` restricted to the characters occurring in the embedded
patterns and data: ASCII `A`–`Z` plus the accented capitals used in the source. -/
def pyLowerChar (c : Char) : Char :=
  if 'A' ≤ c ∧ c ≤ 'Z' then Char.ofNat (c.toNat + 32)
  else if c = 'À' then 'à' else if c = 'Â' then 'â' else if c = 'Ä' then 'ä'
  else if c = 'É' then 'é' else if c = 'È' then 'è' else if c = 'Ê' then 'ê'
  else if c = 'Ë' then 'ë' else if c = 'Î' then 'î' else if c = 'Ï' then 'ï'
  else if c = 'Ô' then 'ô' else if c = 'Ù' then 'ù' else if c = 'Û' then 'û'
  else if c = 'Ü' then 'ü' else if c = 'Ç' then 'ç' else c

/-- Python `str.upper()` on the same character range. -/
def pyUpperChar (c : Char) : Char :=
  if 'a' ≤ c ∧ c ≤ 'z' then Char.ofNat (c.toNat - 32)
  else if c = 'à' then 'À' else if c = 'â' then 'Â' else if c = 'ä' then 'Ä'
  else if c = 'é' then 'É' else if c = 'è' then 'È' else if c = 'ê' then 'Ê'
  else if c = 'ë' then 'Ë' else if c = 'î' then 'Î' else if c = 'ï' then 'Ï'
  else if c = 'ô' then 'Ô' else if c = 'ù' then 'Ù' else if c = 'û' then 'Û'
  else if c = 'ü' then 'Ü' else if c = 'ç' then 'Ç' else c

/-- The accented letters treated as word characters (`\w`) by Python's `re` module
that occur in the embedded patterns and inputs. -/
def accentedWordChars : List Char :=
  "àâäéèêëîïôùûüçÀÂÄÉÈÊËÎÏÔÙÛÜÇñÑœŒÿŸ".data

/-- Python `re` word character (`\w`): alphanumerics, underscore, accented letters. -/
def isWordChar (c : Char) : Bool :=
  c.isAlphanum || c = '_' || accentedWordChars.contains c

/-- Python `re` whitespace (`\s`) over the ASCII range. -/
def isPySpace (c : Char) : Bool :=
  c = ' ' || c = '\t' || c = '\n' || c = '\x0d' || c = '\x0b' || c = '\x0c'

/-- Python `str.strip()`. -/
def pyStrip (l : List Char) : List Char :=
  ((l.dropWhile isPySpace).reverse.dropWhile isPySpace).reverse

/-- Python `str.strip()` on `String`. -/
def pyStripS (s : String) : String := String.mk (pyStrip s.data)

/-- Python `str.lower()` on `String`. -/
def pyLowerS (s : String) : String := String.mk (s.data.map pyLowerChar)

/-- Python `str.title()`: a cased character is uppercased iff the previous
character is not cased, and lowercased otherwise. -/
def pyTitleAux : Bool → List Char → List Char
  | _, [] => []
  | prevCased, c :: t =>
    let cased := c.isAlpha || accentedWordChars.contains c
    (if cased then (if prevCased then pyLowerChar c else pyUpperChar c) else c)
      :: pyTitleAux cased t

/-- Python `str.title()` on `String`. -/
def pyTitle (s : String) : String := String.mk (pyTitleAux false s.data)

/-- `needle` occurs as a contiguous substring of `hay` (Python's `in` operator). -/
def containsSub (needle : List Char) : List Char → Bool
  | [] => needle.isEmpty
  | c :: t => needle.isPrefixOf (c :: t) || containsSub needle t

/-- No word boundary is crossed coming from `prev` into a word character:
`\b` holds before a word character iff the previous character (if any) is not
a word character. -/
def boundaryBefore (prev : Option Char) : Bool :=
  match prev with
  | none => true
  | some p => !isWordChar p

/-- `\b` holds after a word character at the head of the remaining list `l`
(after dropping `n` matched characters) iff the next character, if any, is
not a word character. -/
def boundaryAfter (n : Nat) (l : List Char) : Bool :=
  match l.drop n with
  | [] => true
  | c :: _ => !isWordChar c

/-- Search for `\b needle \b` in `hay`, both already lowered; the needle
starts and ends with word characters (true for every needle used). -/
def wbSearchAux (needle : List Char) (prev : Option Char) : List Char → Bool
  | [] => false
  | c :: t =>
    (boundaryBefore prev && needle.isPrefixOf (c :: t) && boundaryAfter needle.length (c :: t))
      || wbSearchAux needle (some c) t

/-- Case-insensitive word-boundary search (`re.search(r"(?i)\b…\b", hay)` truthiness);
`hay` must already be lowered, `needle` lowercase. -/
def wbSearch (needle hay : List Char) : Bool := wbSearchAux needle none hay

/-- Word-boundary search for any needle of a list (regex alternation under `\b(…|…)\b`). -/
def wbSearchAny (needles : List String) (hay : List Char) : Bool :=
  needles.any fun n => wbSearch n.data hay

/-- Four-digit-year head match for `\b(19|20)\d{2}\b`: the head of `l` is `19xx`
or `20xx` followed by a word boundary.  Returns the year value. -/
def yearAtHead : List Char → Option Nat
  | a :: b :: c :: d :: rest =>
    if ((a == '1' && b == '9') || (a == '2' && b == '0')) && c.isDigit && d.isDigit
        && boundaryAfter 0 rest then
      some (((a.toNat - 48) * 10 + (b.toNat - 48)) * 100 + (c.toNat - 48) * 10 + (d.toNat - 48))
    else none
  | _ => none

/-- Leftmost match of `\b(19|20)\d{2}\b` (`re.search` in `_parse_date` and friends). -/
def yearSearchAux (prev : Option Char) : List Char → Option Nat
  | [] => none
  | c :: t =>
    match (if boundaryBefore prev then yearAtHead (c :: t) else none) with
    | some y => some y
    | none => yearSearchAux (some c) t

/-- Leftmost `\b(19|20)\d{2}\b` match in `l`. -/
def yearSearch (l : List Char) : Option Nat := yearSearchAux none l

/-- Match of `ce\s*jour` at the head of `l` (lowered). -/
def ceJourAt (l : List Char) : Bool :=
  match l with
  | 'c' :: 'e' :: rest => "jour".data.isPrefixOf (rest.dropWhile isPySpace)
  | _ => false

/-- Search for `ce\s*jour` anywhere in `l` (lowered). -/
def ceJourSearch : List Char → Bool
  | [] => false
  | c :: t => ceJourAt (c :: t) || ceJourSearch t

/-- The apostrophe character, written via its code point. -/
def apostrophe : Char := Char.ofNat 39

/-- `years_calculator._PRESENT_KEYWORDS`: case-insensitive search for
`présent|present|aujourd'?hui|actuel|now|current|ce\s*jour`; `hay` already lowered. -/
def presentSearch (hay : List Char) : Bool :=
  containsSub "présent".data hay || containsSub "present".data hay
    || containsSub ("aujourd".data ++ [apostrophe] ++ "hui".data) hay
    || containsSub "aujourdhui".data hay
    || containsSub "actuel".data hay || containsSub "now".data hay
    || containsSub "current".data hay || ceJourSearch hay

/-! ### `app/services/years_calculator.py` -/

/-- `datetime.date`, ordered lexicographically by (year, month, day). -/
structure PDate where
  year : Nat
  month : Nat
  day : Nat
deriving DecidableEq

/-- Lexicographic `≤` on dates (Python `date` comparison). -/
def pdLe (a b : PDate) : Bool :=
  decide (a.year < b.year ∨ (a.year = b.year ∧
    (a.month < b.month ∨ (a.month = b.month ∧ a.day ≤ b.day))))

/-- Lexicographic `<` on dates. -/
def pdLt (a b : PDate) : Bool :=
  decide (a.year < b.year ∨ (a.year = b.year ∧
    (a.month < b.month ∨ (a.month = b.month ∧ a.day < b.day))))

/-- Python `max(a, b)` on dates: returns `b` only when `b > a`. -/
def pdMax (a b : PDate) : PDate := if pdLt a b then b else a

/-- `years_calculator._MONTH_MAP`, in source (dict-insertion) order. -/
def monthMap : List (String × Nat) :=
  [("jan", 1), ("january", 1), ("janvier", 1),
   ("feb", 2), ("february", 2), ("fév", 2), ("février", 2), ("fevrier", 2),
   ("mar", 3), ("march", 3), ("mars", 3),
   ("apr", 4), ("april", 4), ("avr", 4), ("avril", 4),
   ("may", 5), ("mai", 5),
   ("jun", 6), ("june", 6), ("juin", 6),
   ("jul", 7), ("july", 7), ("juil", 7), ("juillet", 7),
   ("aug", 8), ("august", 8), ("août", 8), ("aout", 8),
   ("sep", 9), ("sept", 9), ("september", 9), ("septembre", 9),
   ("oct", 10), ("october", 10), ("octobre", 10),
   ("nov", 11), ("november", 11), ("novembre", 11),
   ("dec", 12), ("december", 12), ("déc", 12), ("décembre", 12), ("decembre", 12)]

/-- The month-name scan of `_parse_date`: first key of `_MONTH_MAP` (in dict order)
matching `(?i)\b key \b` in the date string. -/
def monthSearch (low : List Char) : Option Nat :=
  monthMap.findSome? fun kv => if wbSearch kv.1.data low then some kv.2 else none

/-- `years_calculator._parse_date` on a character list. -/
def parse_date_cl (today : PDate) (l : List Char) (is_end : Bool) : Option PDate :=
  let s := pyStrip l
  let low := s.map pyLowerChar
  if presentSearch low then some today
  else
    match yearSearch low with
    | none => none
    | some year =>
      match monthSearch low with
      | some m => some ⟨year, m, 1⟩
      | none => some ⟨year, if is_end then 12 else 1, 1⟩

/-- `years_calculator._parse_date` (with `date.today()` made explicit). -/
def parse_date (today : PDate) (date_str : Option String) (is_end : Bool) : Option PDate :=
  match date_str with
  | none => none
  | some s => parse_date_cl today s.data is_end

/-- The fields of `models.Experience` consumed by the years calculator. -/
structure Experience where
  start_date : Option String := none
  end_date : Option String := none
  position : Option String := none
  company : Option String := none
  mission_summary : Option String := none
deriving DecidableEq

/-- Python `x or 'inconnu'` on an optional string (`None` and `""` are falsy). -/
def orInconnu : Option String → String
  | none => "inconnu"
  | some s => if s = "" then "inconnu" else s

/-- Python `x or ''`. -/
def orEmpty : Option String → String
  | none => ""
  | some s => s

/-- Missing-start message of `calculate_years_of_experience`. -/
def msgMissingStart (e : Experience) : String :=
  "Date début manquante: " ++ orInconnu e.position ++ " @ " ++ orInconnu e.company

/-- Missing-end message of `calculate_years_of_experience`. -/
def msgMissingEnd (e : Experience) : String :=
  "Date fin absente (→ présent): " ++ orInconnu e.position ++ " @ " ++ orInconnu e.company

/-- End-before-start message of `calculate_years_of_experience`. -/
def msgEndBeforeStart (e : Experience) : String :=
  "Date fin < début (ignorée): " ++ orInconnu e.position

/-- The internship check of `calculate_years_of_experience`:
`(?i)\b(stage|stagiaire|intern|internship)\b` over lowered position + summary. -/
def isInternship (e : Experience) : Bool :=
  let text_check := (orEmpty e.position ++ " " ++ orEmpty e.mission_summary).data.map pyLowerChar
  wbSearchAny ["stage", "stagiaire", "intern", "internship"] text_check

/-- Intermediate state of the per-experience loop of `calculate_years_of_experience`:
both interval lists and the `missing_dates` log. -/
structure CollectState where
  intervals : List (PDate × PDate)
  intervalsNoInternship : List (PDate × PDate)
  missing : List String
deriving DecidableEq

/-- One iteration of the experience loop: the intervals and messages the
experience `e` contributes, in source order. -/
def collectStep (today : PDate) (e : Experience) :
    List (PDate × PDate) × List (PDate × PDate) × List String :=
  match parse_date today e.start_date false with
  | none => ([], [], [msgMissingStart e])
  | some start =>
    let endAndMsg : PDate × List String :=
      match parse_date today e.end_date true with
      | none => (today, [msgMissingEnd e])
      | some en => (en, [])
    if pdLt endAndMsg.1 start then
      ([], [], endAndMsg.2 ++ [msgEndBeforeStart e])
    else
      ([(start, endAndMsg.1)],
       if isInternship e then [] else [(start, endAndMsg.1)],
       endAndMsg.2)

/-- The whole experience loop of `calculate_years_of_experience`. -/
def collect (today : PDate) : List Experience → CollectState
  | [] => ⟨[], [], []⟩
  | e :: rest =>
    let s := collectStep today e
    let r := collect today rest
    ⟨s.1 ++ r.intervals, s.2.1 ++ r.intervalsNoInternship, s.2.2 ++ r.missing⟩

/-- The merge walk of `_merge_intervals` over the already-sorted list:
`cur` is the last kept interval. -/
def mergeWalk (cur : PDate × PDate) : List (PDate × PDate) → List (PDate × PDate)
  | [] => [cur]
  | (s, e) :: t =>
    if pdLe s cur.2 then mergeWalk (cur.1, pdMax cur.2 e) t
    else cur :: mergeWalk (s, e) t

/-- `years_calculator._merge_intervals`: sort by start (Python's stable sort),
then merge overlapping intervals. -/
def merge_intervals (intervals : List (PDate × PDate)) : List (PDate × PDate) :=
  match List.insertionSort (fun a b : PDate × PDate => pdLe a.1 b.1 = true) intervals with
  | [] => []
  | h :: t => mergeWalk h t

/-- Months spanned by an interval: `(end.year - start.year) * 12 + (end.month - start.month)`. -/
def monthsOf (s e : PDate) : Int :=
  ((e.year : Int) - s.year) * 12 + ((e.month : Int) - s.month)

/-- Python `max` on integers, written so that it evaluates by kernel reduction. -/
def pyMaxI (a b : Int) : Int := if a ≤ b then b else a

/-- Python `max` on rationals. -/
def pyMaxQ (a b : ℚ) : ℚ := if a ≤ b then b else a

/-- Python `min` on rationals. -/
def pyMinQ (a b : ℚ) : ℚ := if a ≤ b then a else b

/-- Python round-half-to-even of a rational to an integer.  The floor is computed
as `num.fdiv den` so that the definition evaluates by kernel reduction. -/
def pyRoundHalfEven (x : ℚ) : ℤ :=
  let n := x.num.fdiv x.den
  let f := x - n
  if f < 1/2 then n else if 1/2 < f then n + 1 else if n % 2 = 0 then n else n + 1

/-- Python `round(x, 2)` on exact decimals. -/
def pyRound2 (x : ℚ) : ℚ := pyRoundHalfEven (x * 100) / 100

/-- Python `round(x, 1)` on exact decimals. -/
def pyRound1 (x : ℚ) : ℚ := pyRoundHalfEven (x * 10) / 10

/-- One entry of the `intervals` field of the result (`serializable_intervals`). -/
structure SerializableInterval where
  start : PDate
  stop : PDate
  months : Int
deriving DecidableEq

/-- `models.YearsOfExperience` as produced by `calculate_years_of_experience`. -/
structure YearsOfExperience where
  total_months : Int
  total_years : ℚ
  total_years_excluding_internships : ℚ
  intervals : List SerializableInterval
  missing_dates : List String
  confidence : ℚ
deriving DecidableEq

/-- `years_calculator.calculate_years_of_experience` (with `date.today()` explicit). -/
def calculate_years_of_experience (today : PDate) (experiences : List Experience) :
    YearsOfExperience :=
  let c := collect today experiences
  let merged := merge_intervals c.intervals
  let mergedNoIntern := merge_intervals c.intervalsNoInternship
  let total_months : Int := (merged.map fun se => pyMaxI (monthsOf se.1 se.2) 0).sum
  let serializable := merged.map fun se => SerializableInterval.mk se.1 se.2 (monthsOf se.1 se.2)
  let total_months_no_intern : Int :=
    (mergedNoIntern.map fun se => pyMaxI (monthsOf se.1 se.2) 0).sum
  let total_years : ℚ := if total_months ≠ 0 then pyRound1 ((total_months : ℚ) / 12) else 0
  let total_years_no_intern : ℚ :=
    if total_months_no_intern ≠ 0 then pyRound1 ((total_months_no_intern : ℚ) / 12) else 0
  let confidence : ℚ :=
    if c.missing ≠ [] then 1 - pyMinQ (1/2) ((c.missing.length : ℚ) * (1/10)) else 1
  { total_months := total_months
    total_years := total_years
    total_years_excluding_internships := total_years_no_intern
    intervals := serializable
    missing_dates := c.missing
    confidence := pyRound2 (pyMaxQ 0 confidence) }

/-! ### `app/config.py`: degree levels and language level map -/

/-- `config.DEGREE_LEVELS`, in source (dict-insertion) order. -/
def DEGREE_LEVELS : List (String × Nat) :=
  [("doctorat", 8), ("phd", 8), ("doctorate", 8),
   ("master", 7), ("ingénieur", 7), ("ingenieur", 7), ("msc", 7), ("mba", 7),
   ("licence", 6), ("bachelor", 6), ("bsc", 6),
   ("dut", 5), ("bts", 5), ("deust", 5), ("deug", 5),
   ("baccalauréat", 4), ("baccalaureat", 4), ("bac", 4)]

/-- `config.DEGREE_LEVEL_LABELS`. -/
def DEGREE_LEVEL_LABELS : List (Nat × String) :=
  [(8, "Bac+8 / Doctorat"),
   (7, "Bac+5 / Master-Ingénieur"),
   (6, "Bac+3 / Licence"),
   (5, "Bac+2 / DUT-BTS"),
   (4, "Baccalauréat")]

/-- `config.LANGUAGE_LEVEL_MAP`, in source (dict-insertion) order. -/
def LANGUAGE_LEVEL_MAP : List (String × ℚ) :=
  [("native", 5), ("mother tongue", 5), ("langue maternelle", 5),
   ("bilingue", 5), ("bilingual", 5), ("c2", 5),
   ("fluent", 4), ("couramment", 4), ("courant", 4),
   ("professional proficiency", 4), ("c1", 4),
   ("full professional proficiency", 9/2),
   ("b2", 7/2), ("upper intermediate", 7/2),
   ("intermédiaire avancé", 7/2),
   ("intermediate", 3), ("intermédiaire", 3), ("b1", 3),
   ("basic", 2), ("basique", 2), ("notions", 2),
   ("scolaire", 2), ("a2", 2), ("elementary", 2),
   ("beginner", 1), ("débutant", 1), ("a1", 1)]

/-- Python `dict.get(key, default)` over an association list. -/
def dictGet {α : Type} (l : List (String × α)) (key : String) (dflt : α) : α :=
  match l.find? (fun kv => kv.1 = key) with
  | some kv => kv.2
  | none => dflt

/-- Python `dict.get(key, default)` keyed by `Nat`. -/
def dictGetN {α : Type} (l : List (Nat × α)) (key : Nat) (dflt : α) : α :=
  match l.find? (fun kv => kv.1 = key) with
  | some kv => kv.2
  | none => dflt

/-! ### `app/services/education_extractor.py` -/

/-- `models.Education`. -/
structure Education where
  year : Option Nat
  degree : String
  school : Option String
  degree_level : Option String
  status : String
  evidence : String
  confidence : ℚ
deriving DecidableEq

/-- `models.LastDegree`. -/
structure LastDegree where
  degree : String
  level : Option String
  school : Option String
  year : Option Nat
  confidence : ℚ
deriving DecidableEq

/-- One raw entry produced by `_extract_entries_from_section` and consumed by
`extract_educations`. -/
structure RawEduEntry where
  degree : String
  school : Option String
  years : List Nat
  evidence : String
deriving DecidableEq

/-- `education_extractor._determine_degree_level`: the maximal degree level whose
keyword occurs (as a substring) in the lowered degree text, with its label. -/
def determine_degree_level (degree_text : String) : Nat × String :=
  let text_lower := degree_text.data.map pyLowerChar
  let best_level := DEGREE_LEVELS.foldl
    (fun best kv => if containsSub kv.1.data text_lower then Nat.max best kv.2 else best) 0
  (best_level, dictGetN DEGREE_LEVEL_LABELS best_level "Inconnu")

/-- `education_extractor._DEGREE_KEYWORDS`: `(?i)\b(doctorat|…|bac)\b`. -/
def degreeKeywordSearch (s : String) : Bool :=
  wbSearchAny
    ["doctorat", "phd", "doctorate", "master", "msc", "mba", "ingénieur", "ingenieur",
     "licence", "bachelor", "bsc", "dut", "bts", "deust", "deug",
     "baccalauréat", "baccalaureat", "bac"]
    (s.data.map pyLowerChar)

/-- The in-progress check of `extract_educations`:
`re.search(r"(?i)(en cours|in progress|ongoing|current)", degree_text)`. -/
def eduInProgressSearch (degree_text : String) : Bool :=
  let low := degree_text.data.map pyLowerChar
  containsSub "en cours".data low || containsSub "in progress".data low
    || containsSub "ongoing".data low || containsSub "current".data low

/-- The per-entry body of `extract_educations` (lines building one `Education`
from a raw entry; the entry segmentation itself is quantified over). -/
def mkEducation (entry : RawEduEntry) : Education :=
  let year : Option Nat := entry.years.max?
  let degree_text := entry.degree
  let levelAndLabel := determine_degree_level degree_text
  let status := if eduInProgressSearch degree_text then "en_cours" else "obtained"
  let confidence : ℚ := (1/2)
    + (match year with | some y => if y ≠ 0 then (1/4 : ℚ) else 0 | none => 0)
    + (if degreeKeywordSearch degree_text then (1/4 : ℚ) else 0)
  { year := year
    degree := pyStripS degree_text
    school := entry.school
    degree_level := if 0 < levelAndLabel.1 then some levelAndLabel.2 else none
    status := status
    evidence := entry.evidence
    confidence := pyRound2 confidence }

/-- `extract_educations` downstream of entry segmentation. -/
def extract_educations_from (entries : List RawEduEntry) : List Education :=
  entries.map mkEducation

/-- The `_sort_key` of `determine_last_degree`: (max matching degree level, year or 0). -/
def eduSortKey (edu : Education) : Nat × Nat :=
  let text_lower := edu.degree.data.map pyLowerChar
  let level_num := DEGREE_LEVELS.foldl
    (fun best kv => if containsSub kv.1.data text_lower then Nat.max best kv.2 else best) 0
  (level_num, edu.year.getD 0)

/-- Strict lexicographic `>` on `ℕ × ℕ` keys (Python tuple comparison). -/
def keyGt (a b : Nat × Nat) : Bool :=
  decide (b.1 < a.1 ∨ (a.1 = b.1 ∧ b.2 < a.2))

/-- Python `max(xs, key=k)`: the first element whose key is maximal (a later
element replaces the current best only when its key is strictly greater). -/
def pyMaxBy {α : Type} (k : α → Nat × Nat) (x : α) (xs : List α) : α :=
  xs.foldl (fun best e => if keyGt (k e) (k best) then e else best) x

/-- `education_extractor.determine_last_degree`. -/
def determine_last_degree : List Education → Option LastDegree
  | [] => none
  | e :: rest =>
    let best := pyMaxBy eduSortKey e rest
    let levelAndLabel := determine_degree_level best.degree
    some
      { degree := best.degree
        level := if 0 < levelAndLabel.1 then some levelAndLabel.2 else none
        school := best.school
        year := best.year
        confidence := best.confidence }

/-! ### `app/config.py`: skill/tool taxonomies and aliases -/

/-- `config.HARD_SKILLS_TAXONOMY` (a Python set; embedded in source order). -/
def HARD_SKILLS_TAXONOMY : List String :=
  ["machine learning", "deep learning", "computer vision", "vision par ordinateur",
   "nlp", "natural language processing", "traitement du langage naturel", "traitement automatique du langage",
   "text mining", "sentiment analysis", "analyse de sentiment", "data science",
   "data engineering", "data analysis", "analyse de données", "analyse des données",
   "data preprocessing", "préparation des données", "préparation de données", "feature engineering",
   "statistical analysis", "analyse statistique", "statistiques", "predictive modeling",
   "modélisation prédictive", "model training", "entraînement de modèles", "model optimization",
   "optimisation de modèles", "model evaluation", "évaluation de modèles", "data visualization",
   "visualisation de données", "visualisation des données", "business intelligence", "etl",
   "data pipeline", "pipeline de données", "data warehouse", "data warehousing",
   "big data", "data lake", "recommender system", "système de recommandation",
   "time series", "série temporelle", "prévision", "generative ai",
   "ia générative", "llm", "large language model", "prompt engineering",
   "rag", "retrieval augmented generation", "backend development", "développement backend",
   "frontend development", "développement frontend", "full-stack development", "full stack",
   "full-stack", "web development", "développement web", "mobile development",
   "développement mobile", "api design", "conception d\x27api", "conception api",
   "rest api", "api rest", "restful api", "graphql",
   "grpc", "websocket", "soap", "microservices",
   "architecture microservices", "software architecture", "architecture logicielle", "system design",
   "conception de système", "database design", "conception de base de données", "modélisation de données",
   "object-oriented programming", "programmation orientée objet", "oop", "functional programming",
   "programmation fonctionnelle", "design patterns", "clean code", "solid principles",
   "unit testing", "tests unitaires", "integration testing", "tests d\x27intégration",
   "test-driven development", "tdd", "web scraping", "automatisation",
   "devops", "devsecops", "sre", "ci/cd",
   "intégration continue", "continuous integration", "continuous deployment", "continuous delivery",
   "cloud computing", "cloud architecture", "architecture cloud", "cloud deployment",
   "déploiement cloud", "containerization", "conteneurisation", "infrastructure as code",
   "monitoring", "observabilité", "cybersecurity", "cybersécurité",
   "sécurité informatique", "penetration testing", "test d\x27intrusion", "secure coding",
   "codage sécurisé", "agile", "scrum", "kanban",
   "project management", "gestion de projet", "technical leadership", "lead technique",
   "code review", "revue de code", "business analysis", "analyse métier",
   "reporting", "finance", "comptabilité", "accounting",
   "marketing digital", "seo", "e-commerce", "embedded systems",
   "systèmes embarqués", "iot", "internet of things", "blockchain",
   "web3", "smart contracts", "game development", "développement de jeux",
   "erp", "crm", "network administration", "administration réseau",
   "linux administration", "administration système"]

/-- `config.SOFT_SKILLS_TAXONOMY` (a Python set; embedded in source order). -/
def SOFT_SKILLS_TAXONOMY : List String :=
  ["communication", "leadership", "teamwork", "problem solving",
   "problem-solving", "critical thinking", "adaptability", "adaptabilité",
   "time management", "gestion du temps", "creativity", "créativité",
   "collaboration", "decision making", "prise de décision", "conflict resolution",
   "gestion des conflits", "emotional intelligence", "intelligence émotionnelle", "negotiation",
   "négociation", "presentation", "présentation", "mentoring",
   "coaching", "empathy", "empathie", "flexibility",
   "flexibilité", "initiative", "attention to detail", "souci du détail",
   "work ethic", "éthique de travail", "stress management", "gestion du stress",
   "analytical thinking", "pensée analytique", "organization", "organisation",
   "autonomy", "autonomie", "curiosity", "curiosité",
   "proactivity", "proactivité", "motivation", "perseverance",
   "persévérance", "interpersonal skills", "compétences interpersonnelles", "public speaking",
   "prise de parole en public"]

/-- `config.TOOLS_TAXONOMY` (a Python set; embedded in source order). -/
def TOOLS_TAXONOMY : List String :=
  ["python", "java", "javascript", "typescript",
   "c", "c++", "c#", "go",
   "rust", "ruby", "php", "swift",
   "kotlin", "scala", "r", "matlab",
   "bash", "powershell", "sql", "nosql",
   "mongodb", "postgresql", "mysql", "oracle",
   "sqlite", "redis", "elasticsearch", "neo4j",
   "cassandra", "snowflake", "mariadb", "dynamodb",
   "firebase", "react", "angular", "vue",
   "vue.js", "next.js", "nuxt.js", "svelte",
   "html", "css", "sass", "tailwind",
   "bootstrap", "jquery", "node.js", "express",
   "fastapi", "django", "flask", "spring",
   "spring boot", "laravel", "asp.net", ".net",
   "rails", "symfony", "nestjs", "strapi",
   "docker", "kubernetes", "k8s", "terraform",
   "ansible", "jenkins", "gitlab ci", "github actions",
   "helm", "vagrant", "nginx", "git",
   "github", "gitlab", "bitbucket", "svn",
   "aws", "azure", "gcp", "google cloud",
   "heroku", "vercel", "netlify", "digitalocean",
   "render", "railway", "linux", "ubuntu",
   "centos", "windows server", "tensorflow", "pytorch",
   "keras", "scikit-learn", "scikit learn", "pandas",
   "numpy", "scipy", "matplotlib", "seaborn",
   "plotly", "xgboost", "lightgbm", "hugging face",
   "transformers", "langchain", "openai", "gemini",
   "mistral", "ollama", "spark", "pyspark",
   "hadoop", "hive", "airflow", "apache airflow",
   "prefect", "luigi", "kafka", "apache kafka",
   "rabbitmq", "mlflow", "wandb", "dvc",
   "power bi", "tableau", "grafana", "kibana",
   "metabase", "looker", "google analytics", "vs code",
   "vscode", "intellij", "pycharm", "eclipse",
   "jupyter", "google colab", "jira", "trello",
   "confluence", "notion", "asana", "monday",
   "figma", "adobe xd", "photoshop", "illustrator",
   "canva", "postman", "insomnia", "swagger",
   "openapi", "selenium", "cypress", "jest",
   "pytest", "junit", "prometheus", "datadog",
   "sentry", "sonarqube", "elasticsearch", "logstash",
   "splunk", "oauth", "jwt", "ssl",
   "tls", "gradle", "maven", "npm",
   "yarn", "pip", "conda", "poetry",
   "excel", "word", "powerpoint", "google sheets",
   "microsoft teams", "slack", "sap", "odoo",
   "salesforce", "hubspot", "solidity", "wordpress",
   "unity", "unreal engine"]

/-- `config.SKILL_ALIASES`, in source (dict-insertion) order. -/
def SKILL_ALIASES : List (String × String) :=
  [("js", "JavaScript"), ("ts", "TypeScript"),
   ("py", "Python"), ("cpp", "C++"),
   ("csharp", "C#"), ("postgres", "PostgreSQL"),
   ("mongo", "MongoDB"), ("elastic", "Elasticsearch"),
   ("k8s", "Kubernetes"), ("tf", "Terraform"),
   ("react.js", "React"), ("reactjs", "React"),
   ("angularjs", "Angular"), ("vuejs", "Vue.js"),
   ("nextjs", "Next.js"), ("expressjs", "Express"),
   ("node", "Node.js"), ("nodejs", "Node.js"),
   ("sklearn", "scikit-learn"), ("sk-learn", "scikit-learn"),
   ("hf", "Hugging Face"), ("gpt", "OpenAI"),
   ("langchain", "LangChain"), ("gcp", "GCP"),
   ("google cloud platform", "GCP"), ("problem-solving", "Problem solving"),
   ("problem solving", "Problem solving"), ("analyse de données", "Data Analysis"),
   ("analyse des données", "Data Analysis"), ("visualisation de données", "Data Visualization"),
   ("visualisation des données", "Data Visualization"), ("préparation des données", "Data Preprocessing"),
   ("ia générative", "Generative AI"), ("traitement du langage naturel", "NLP"),
   ("traitement automatique du langage", "NLP"), ("vision par ordinateur", "Computer Vision"),
   ("modélisation prédictive", "Predictive Modeling"), ("développement backend", "Backend Development"),
   ("développement frontend", "Frontend Development"), ("développement web", "Web Development"),
   ("développement mobile", "Mobile Development"), ("architecture logicielle", "Software Architecture"),
   ("conception api", "API Design"), ("conception d\x27api", "API Design"),
   ("gestion de projet", "Project Management"), ("intégration continue", "CI/CD"),
   ("conteneurisation", "Containerization"), ("déploiement cloud", "Cloud Deployment"),
   ("architecture cloud", "Cloud Architecture"), ("sécurité informatique", "Cybersecurity")]

/-! ### `app/services/skills_extractor.py` -/

/-- `models.Skill`. -/
structure Skill where
  name : String
  level : Nat
  category : String
  score : ℚ
  evidence : List String
  confidence : ℚ
deriving DecidableEq

/-- `models.Tool`. -/
structure Tool where
  name : String
  level : Nat
  score : ℚ
  evidence : List String
  confidence : ℚ
deriving DecidableEq

/-- `skills_extractor._normalize_skill`: canonicalize a term through `SKILL_ALIASES`. -/
def normalize_skill (name : String) : String :=
  let lower := pyLowerS (pyStripS name)
  match SKILL_ALIASES.find? (fun kv => kv.1 = lower) with
  | some kv => kv.2
  | none => pyStripS name

/-- `skills_extractor._compute_level`: the evidence-threshold level in 1–5. -/
def compute_level (score : ℚ) (has_impact : Bool) (mention_count : Nat) : Nat :=
  if 15 ≤ score ∨ (has_impact = true ∧ 3 ≤ mention_count) then 5
  else if 10 ≤ score ∨ has_impact = true then 4
  else if 6 ≤ score ∨ 2 ≤ mention_count then 3
  else if 3 ≤ score then 2
  else 1

/-- The confidence formula shared by `extract_skills` and `extract_top_tools`:
`min(1.0, 0.3 + mentions * 0.15 + (0.2 if has_impact else 0))`. -/
def skillConfidence (mentions : Nat) (has_impact : Bool) : ℚ :=
  pyMinQ 1 (3/10 + (mentions : ℚ) * (15/100) + (if has_impact then 1/5 else 0))

/-- The per-term accumulator record of `extract_skills` / `extract_top_tools`
(`skill_data` / `tool_data` values). -/
structure SkillAcc where
  name : String
  category : String
  score : ℚ
  mentions : Nat
  has_impact : Bool
  evidence : List String
deriving DecidableEq

/-- The `Skill` built from one accumulator entry in `extract_skills`. -/
def mkSkill (d : SkillAcc) : Skill :=
  { name := d.name
    level := compute_level d.score d.has_impact d.mentions
    category := d.category
    score := pyRound1 d.score
    evidence := d.evidence
    confidence := pyRound2 (skillConfidence d.mentions d.has_impact) }

/-- The `Tool` built from one accumulator entry in `extract_top_tools`. -/
def mkTool (d : SkillAcc) : Tool :=
  { name := d.name
    level := compute_level d.score d.has_impact d.mentions
    score := pyRound1 d.score
    evidence := d.evidence
    confidence := pyRound2 (skillConfidence d.mentions d.has_impact) }

/-- Sorting relation for `list.sort(key=lambda s: s.score, reverse=True)` on skills:
Python's stable descending sort. -/
def skillScoreGe (a b : Skill) : Prop := b.score ≤ a.score

/-- Sorting relation for tools. -/
def toolScoreGe (a b : Tool) : Prop := b.score ≤ a.score

instance : DecidableRel skillScoreGe := fun a b => inferInstanceAs (Decidable (b.score ≤ a.score))

instance : DecidableRel toolScoreGe := fun a b => inferInstanceAs (Decidable (b.score ≤ a.score))

instance : IsTotal Skill skillScoreGe := ⟨fun a b => le_total b.score a.score⟩

instance : IsTrans Skill skillScoreGe := ⟨fun _ _ _ h1 h2 => le_trans h2 h1⟩

instance : IsTotal Tool toolScoreGe := ⟨fun a b => le_total b.score a.score⟩

instance : IsTrans Tool toolScoreGe := ⟨fun _ _ _ h1 h2 => le_trans h2 h1⟩

/-- The result-construction tail of `extract_skills` (lines 163–189), downstream of
the text scan: build `Skill`s from the accumulated per-term data (in dict order),
split by category, sort each list by score descending (stable) and keep the top 5. -/
def extract_skills_from (skill_data : List SkillAcc) : List Skill × List Skill :=
  let hard_skills := (skill_data.filter (fun d => d.category = "hard")).map mkSkill
  let soft_skills := (skill_data.filter (fun d => ¬(d.category = "hard"))).map mkSkill
  ((List.insertionSort skillScoreGe hard_skills).take 5,
   (List.insertionSort skillScoreGe soft_skills).take 5)

/-- Lowered hard-skill taxonomy (`_hard_lower` in `extract_top_tools`). -/
def hardLower : List String := HARD_SKILLS_TAXONOMY.map pyLowerS

/-- Lowered tool taxonomy. -/
def toolsLower : List String := TOOLS_TAXONOMY.map pyLowerS

/-- The canonical names that the scan loop of `extract_top_tools` can ever register:
taxonomy tools whose lowering is not a hard skill (those are skipped), canonicalized
through `_normalize_skill` (lines 208–219). -/
def toolScanNames : List String :=
  (TOOLS_TAXONOMY.filter (fun t => ¬ hardLower.contains (pyLowerS t))).map normalize_skill

/-- The result-construction tail of `extract_top_tools` (lines 241–263): apply the
noise gate (`mentions < 2 and score < 4`), build `Tool`s, sort by score descending
and keep the top 5. -/
def extract_top_tools_from (tool_data : List SkillAcc) : List Tool :=
  let tools := (tool_data.filter
    (fun d => ¬(d.mentions < 2 ∧ d.score < 4))).map mkTool
  (List.insertionSort toolScoreGe tools).take 5

/-! ### `app/services/name_extractor.py` and `app/services/experience_extractor.py`:
confidence formulas -/

/-- The position-tiered confidence of `extract_candidate_name` (line 118). -/
def nameConfidence (best_pos : Nat) : ℚ :=
  if best_pos ≤ 3 then 19/20 else if best_pos ≤ 7 then 4/5 else 13/20

/-- The confidence of `_parse_experience_block` (lines 239–245 and 258):
`0.5 + 0.2·start + 0.2·position + 0.1·company`, rounded to 2 decimals. -/
def experienceConfidence (has_start has_position has_company : Bool) : ℚ :=
  pyRound2 ((1/2) + (if has_start then (1/5 : ℚ) else 0)
    + (if has_position then (1/5 : ℚ) else 0) + (if has_company then (1/10 : ℚ) else 0))

/-! ### `app/services/language_extractor.py` -/

/-- `models.Language`. -/
structure Language where
  name : String
  level : ℚ
  level_label : Option String
  evidence : Option String
  confidence : ℚ
deriving DecidableEq

/-- `language_extractor._KNOWN_LANGUAGES`, in source (dict-insertion) order. -/
def KNOWN_LANGUAGES : List (String × String) :=
  [("français", "Français"), ("francais", "Français"), ("french", "Français"),
   ("anglais", "Anglais"), ("english", "Anglais"),
   ("arabe", "Arabe"), ("arabic", "Arabe"),
   ("espagnol", "Espagnol"), ("spanish", "Espagnol"), ("español", "Espagnol"),
   ("allemand", "Allemand"), ("german", "Allemand"), ("deutsch", "Allemand"),
   ("italien", "Italien"), ("italian", "Italien"),
   ("portugais", "Portugais"), ("portuguese", "Portugais"),
   ("chinois", "Chinois"), ("chinese", "Chinois"), ("mandarin", "Chinois"),
   ("japonais", "Japonais"), ("japanese", "Japonais"),
   ("russe", "Russe"), ("russian", "Russe"),
   ("turc", "Turc"), ("turkish", "Turc"),
   ("néerlandais", "Néerlandais"), ("dutch", "Néerlandais"),
   ("coréen", "Coréen"), ("korean", "Coréen"),
   ("amazigh", "Amazigh"), ("berbère", "Amazigh"), ("tamazight", "Amazigh"),
   ("hindi", "Hindi")]

/-- Python `"a".split("\n")` on character lists. -/
def splitOnNl (l : List Char) : List (List Char) :=
  match l with
  | [] => [[]]
  | c :: t =>
    match splitOnNl t with
    | [] => [[]]
    | h :: r => if c = '\n' then [] :: h :: r else (c :: h) :: r

/-- Length of the longest prefix satisfying `p`. -/
def countWhile (p : Char → Bool) (l : List Char) : Nat := (l.takeWhile p).length

/-- CEFR code at the head of `l`: `[ABC][12]` (case-insensitive) followed by a
word boundary.  Returns the two matched characters. -/
def cefrAtHead : List Char → Option (Char × Char)
  | a :: b :: rest =>
    let la := pyLowerChar a
    if (la == 'a' || la == 'b' || la == 'c') && (b == '1' || b == '2')
        && boundaryAfter 0 rest then
      some (a, b)
    else none
  | _ => none

/-- Leftmost match of `language_extractor._CEFR_PATTERN` = `\b([ABC][12])\b`
(with `re.IGNORECASE`), scanning the original-case characters. -/
def cefrSearchAux (prev : Option Char) : List Char → Option (Char × Char)
  | [] => none
  | c :: t =>
    match (if boundaryBefore prev then cefrAtHead (c :: t) else none) with
    | some m => some m
    | none => cefrSearchAux (some c) t

/-- Leftmost CEFR match in `l`. -/
def cefrSearch (l : List Char) : Option (Char × Char) := cefrSearchAux none l

/-- `sorted(LANGUAGE_LEVEL_MAP.items(), key=lambda x: -len(x[0]))`: a stable sort
by key length descending. -/
def sortedLevelItems : List (String × ℚ) :=
  List.insertionSort (fun a b : String × ℚ => b.1.length ≤ a.1.length) LANGUAGE_LEVEL_MAP

/-- `language_extractor._detect_level`: `(level, level_label, confidence)` from a
stripped line.  CEFR codes take priority, then level keywords by decreasing
length, else `(0, "Inconnu", 0.3)`. -/
def detect_level (context : String) : ℚ × String × ℚ :=
  let context_lower := pyStrip (context.data.map pyLowerChar)
  match cefrSearch context.data with
  | some m =>
    let cefr_val := String.mk [pyUpperChar m.1, pyUpperChar m.2]
    (dictGet LANGUAGE_LEVEL_MAP (pyLowerS cefr_val) 3, cefr_val, 19/20)
  | none =>
    match sortedLevelItems.findSome? (fun kv =>
        if containsSub kv.1.data context_lower then some kv else none) with
    | some kv => (kv.2, pyTitle kv.1, 17/20)
    | none => (0, "Inconnu", 3/10)

/-- One match of a known language on one line, before deduplication: the
canonical name, the detected `(level, label, confidence)` and the stripped line. -/
structure LangHit where
  name : String
  level : ℚ
  label : String
  confidence : ℚ
  line : String
deriving DecidableEq

/-- The entry created on first sight of a language (`found_languages[...] =` in the
`else` branch): default level 2.5 / "Non spécifié" / confidence 0.3 when no level
was detected. -/
def mkNewLanguage (h : LangHit) : Language :=
  { name := h.name
    level := if 0 < h.level then h.level else 5/2
    level_label := some (if 0 < h.level then h.label else "Non spécifié")
    evidence := some h.line
    confidence := if 0 < h.level then h.confidence else 3/10 }

/-- The entry replacing an existing one when a strictly higher level is found. -/
def mkReplacementLanguage (h : LangHit) : Language :=
  { name := h.name
    level := h.level
    level_label := some h.label
    evidence := some h.line
    confidence := h.confidence }

/-- One dictionary update of the `found_languages` accumulator (lines 145–163):
replace iff the new raw level is strictly greater than the stored level. -/
def langStep (found : List Language) (h : LangHit) : List Language :=
  match found.find? (fun l => l.name = h.name) with
  | some existing =>
    if existing.level < h.level then
      found.map (fun l => if l.name = h.name then mkReplacementLanguage h else l)
    else found
  | none => found ++ [mkNewLanguage h]

/-- Fold the dictionary updates over all hits in text order. -/
def foldLangHits (hits : List LangHit) : List Language := hits.foldl langStep []

/-- All hits of one line, in `_KNOWN_LANGUAGES` order: substring pre-check on the
lowered line, then the word-boundary confirmation, then level detection. -/
def langHitsOfLine (line : List Char) : List LangHit :=
  let line_stripped := pyStrip line
  if line_stripped.isEmpty then []
  else
    let line_lower := line_stripped.map pyLowerChar
    KNOWN_LANGUAGES.filterMap fun kv =>
      if containsSub kv.1.data line_lower && wbSearch kv.1.data line_lower then
        let det := detect_level (String.mk line_stripped)
        some ⟨kv.2, det.1, det.2.1, det.2.2, String.mk line_stripped⟩
      else none

/-- The character class `[\s#*\-]` of the section patterns. -/
def isHeadingFiller (c : Char) : Bool :=
  isPySpace c || c = '#' || c = '*' || c = '-'

/-- One alternation segment of an embedded pattern: a literal or `\s*`. -/
inductive PatSeg where
  | lit (s : String)
  | ws
deriving DecidableEq

/-- Match a segment sequence at the head of `l`, returning the consumed length.
`\s*` is greedy; every following literal starts with a non-space character, so
maximal munch is exact. -/
def matchSegs : List PatSeg → List Char → Option Nat
  | [], _ => some 0
  | .lit s :: rest, l =>
    if s.data.isPrefixOf l then
      (matchSegs rest (l.drop s.data.length)).map (· + s.data.length)
    else none
  | .ws :: rest, l =>
    let k := countWhile isPySpace l
    (matchSegs rest (l.drop k)).map (· + k)

/-- The alternatives of `language_extractor._SECTION_PATTERN`. -/
def languageSectionAlts : List (List PatSeg) :=
  [[.lit "langues"], [.lit "languages"],
   [.lit "compétences", .ws, .lit "linguistiques"],
   [.lit "language", .ws, .lit "skills"],
   [.lit "linguistic", .ws, .lit "skills"]]

/-- Trailing `\s*$` of `_SECTION_PATTERN` under `re.MULTILINE`: the regex engine
backtracks from the greedy whitespace run to the largest offset `j` at which `$`
holds (end of text or just before a newline); `none` when no offset works. -/
def wsDollar (rest : List Char) : Option Nat :=
  let run := countWhile isPySpace rest
  ((List.range (run + 1)).filter fun j =>
    match rest.drop j with
    | [] => true
    | c :: _ => c = '\n').max?

/-- Match `[\s#*\-]*(alt₁|…)\s*$` at a line start of the lowered text, returning
the offset of the match end. -/
def headingMatchAt (alts : List (List PatSeg)) (l : List Char) : Option Nat :=
  let k1 := countWhile isHeadingFiller l
  (alts.findSome? fun alt => matchSegs alt (l.drop k1)).bind fun k2 =>
    (wsDollar (l.drop (k1 + k2))).map fun j => k1 + k2 + j

/-- Scan the lowered text for the first line start where the heading pattern
matches (`matches[0]` of `finditer`), returning the absolute match-end index. -/
def findHeadingEnd (alts : List (List PatSeg)) (l : List Char) : Option Nat :=
  go 0 true l
where
  go (i : Nat) (atLineStart : Bool) : List Char → Option Nat
    | [] =>
      if atLineStart then (headingMatchAt alts []).map (i + ·) else none
    | c :: t =>
      match (if atLineStart then headingMatchAt alts (c :: t) else none) with
      | some k => some (i + k)
      | none => go (i + 1) (c = '\n') t

/-- The next-section alternatives of `_find_language_section` (each a plain
literal followed by `\b`). -/
def languageNextSectionAlts : List String :=
  ["compétence", "competence", "skills", "expérience", "experience",
   "formation", "education", "projet", "project", "loisir", "hobby",
   "intérêt", "interest", "référence", "reference", "certif", "contact"]

/-- Match `[\s#*\-]*(alt₁|…)\b` at a line start: the filler class, then some
alternative literal, then a word boundary. -/
def nextSectionMatchAt (alts : List String) (l : List Char) : Bool :=
  let k1 := countWhile isHeadingFiller l
  let rest := l.drop k1
  alts.any fun a => a.data.isPrefixOf rest && boundaryAfter a.data.length rest

/-- First line-start index (0 counts: `^` matches at the start of the searched
slice) where the next-section pattern matches; `re.search(..., re.MULTILINE)`. -/
def findNextSectionStart (alts : List String) (l : List Char) : Option Nat :=
  go 0 true l
where
  go (i : Nat) (atLineStart : Bool) : List Char → Option Nat
    | [] => if atLineStart && nextSectionMatchAt alts [] then some i else none
    | c :: t =>
      if atLineStart && nextSectionMatchAt alts (c :: t) then some i
      else go (i + 1) (c = '\n') t

/-- `language_extractor._find_language_section`: the stripped slice between the
first language heading and the next section heading. -/
def find_language_section (text : String) : List Char :=
  let orig := text.data
  let low := orig.map pyLowerChar
  match findHeadingEnd languageSectionAlts low with
  | none => []
  | some start =>
    let tailOrig := orig.drop start
    let tailLow := low.drop start
    let stop := (findNextSectionStart languageNextSectionAlts tailLow).getD tailOrig.length
    pyStrip (tailOrig.take stop)

/-- Sorting relation for `sorted(..., key=lambda l: l.level, reverse=True)`. -/
def langLevelGe (a b : Language) : Prop := b.level ≤ a.level

instance : DecidableRel langLevelGe := fun a b => inferInstanceAs (Decidable (b.level ≤ a.level))

instance : IsTotal Language langLevelGe := ⟨fun a b => le_total b.level a.level⟩

instance : IsTrans Language langLevelGe := ⟨fun _ _ _ h1 h2 => le_trans h2 h1⟩

/-- All language hits of a text, in scan order. -/
def langHitsOf (text : String) : List LangHit :=
  let sectionChars := find_language_section text
  let search_text := if sectionChars.isEmpty then text.data else sectionChars
  ((splitOnNl search_text).map langHitsOfLine).flatten

/-- `language_extractor.extract_languages`: find the language section (else whole
text), accumulate per-language entries, sort by level descending, keep the top 3. -/
def extract_languages (text : String) : List Language :=
  (List.insertionSort langLevelGe (foldLangHits (langHitsOf text))).take 3

/-! ### Helper lemmas -/

theorem fdiv_num_den_eq_floor (x : ℚ) : x.num.fdiv x.den = ⌊x⌋ := by
  rw [Int.fdiv_eq_ediv _ (Int.ofNat_nonneg x.den), Rat.floor_def]

theorem pyRoundHalfEven_nonneg {x : ℚ} (h : 0 ≤ x) : 0 ≤ pyRoundHalfEven x := by
  have h0 : (0 : ℤ) ≤ ⌊x⌋ := Int.floor_nonneg.mpr h
  simp only [pyRoundHalfEven, fdiv_num_den_eq_floor]
  split
  · exact h0
  · split
    · omega
    · split <;> omega

theorem pyRoundHalfEven_le {x : ℚ} {C : ℤ} (h : x ≤ C) : pyRoundHalfEven x ≤ C := by
  have hfl : ⌊x⌋ ≤ C := by
    have := Int.floor_le_floor (α := ℚ) h
    simpa using this
  have hx : (⌊x⌋ : ℚ) ≤ x := Int.floor_le x
  simp only [pyRoundHalfEven, fdiv_num_den_eq_floor]
  split
  · exact hfl
  · have hgt : ¬(x - ⌊x⌋ < 1/2) := by assumption
    have hhalf : (⌊x⌋ : ℚ) + 1/2 ≤ x := by linarith [not_lt.mp hgt]
    have hltC : (⌊x⌋ : ℚ) < C := by linarith
    have hss : ⌊x⌋ < C := by exact_mod_cast hltC
    split
    · omega
    · split <;> omega

theorem pyRound2_nonneg {x : ℚ} (h : 0 ≤ x) : 0 ≤ pyRound2 x := by
  unfold pyRound2
  have h1 : 0 ≤ x * 100 := by linarith
  have h2 := pyRoundHalfEven_nonneg h1
  positivity

theorem pyRound2_le_one {x : ℚ} (h : x ≤ 1) : pyRound2 x ≤ 1 := by
  have h1 : x * 100 ≤ ((100 : ℤ) : ℚ) := by push_cast; linarith
  have h2 := pyRoundHalfEven_le h1
  unfold pyRound2
  rw [div_le_one (by norm_num)]
  exact_mod_cast h2

theorem pyMinQ_le_left (a b : ℚ) : pyMinQ a b ≤ a := by
  unfold pyMinQ; split <;> linarith

theorem pyMinQ_nonneg {a b : ℚ} (ha : 0 ≤ a) (hb : 0 ≤ b) : 0 ≤ pyMinQ a b := by
  unfold pyMinQ; split <;> linarith

theorem pyMaxQ_nonneg_left (b : ℚ) : 0 ≤ pyMaxQ 0 b ∧ (b ≤ 1 → pyMaxQ 0 b ≤ 1) := by
  unfold pyMaxQ
  constructor
  · split <;> linarith
  · intro h; split <;> linarith

theorem compute_level_bounds (score : ℚ) (has_impact : Bool) (mentions : Nat) :
    1 ≤ compute_level score has_impact mentions ∧ compute_level score has_impact mentions ≤ 5 := by
  unfold compute_level
  split
  · omega
  · split
    · omega
    · split
      · omega
      · split <;> omega

theorem skillConfidence_bounds (mentions : Nat) (has_impact : Bool) :
    0 ≤ skillConfidence mentions has_impact ∧ skillConfidence mentions has_impact ≤ 1 := by
  unfold skillConfidence
  have hm : (0 : ℚ) ≤ (mentions : ℚ) := Nat.cast_nonneg mentions
  have harg : (0 : ℚ) ≤ 3/10 + (mentions : ℚ) * (15/100) + (if has_impact then (1/5 : ℚ) else 0) := by
    have : (0 : ℚ) ≤ (if has_impact then (1/5 : ℚ) else 0) := by split <;> norm_num
    nlinarith
  exact ⟨pyMinQ_nonneg (by norm_num) harg, pyMinQ_le_left 1 _⟩

/-! ### Claim theorems: duration calculator (C1, C2, C6) -/

section DurationClaims

attribute [local semireducible] Rat.mul Rat.inv Rat.add Rat.sub

/-- C1 (counterexample): for the experiences "2018-01"→"2020-01" and
"2019-06"→"2021-01", `calculate_years_of_experience` returns `total_months = 47`,
not 36 as the claim states: `_parse_date` has no numeric-month branch, so
"2018-01" is read as the bare year 2018 (start → Jan 1, end → Dec 1). -/
theorem c1_counterexample :
    (calculate_years_of_experience ⟨2026, 10, 12⟩
      [{ start_date := some "2018-01", end_date := some "2020-01" },
       { start_date := some "2019-06", end_date := some "2021-01" }]).total_months = 47 ∧
    (calculate_years_of_experience ⟨2026, 10, 12⟩
      [{ start_date := some "2018-01", end_date := some "2020-01" },
       { start_date := some "2019-06", end_date := some "2021-01" }]).total_months ≠ 36 := by
  have h : (calculate_years_of_experience ⟨2026, 10, 12⟩
      [{ start_date := some "2018-01", end_date := some "2020-01" },
       { start_date := some "2019-06", end_date := some "2021-01" }]).total_months = 47 := rfl
  exact ⟨h, by rw [h]; decide⟩

/-- C1 (amended): on those two experiences the calculator still merges the
overlapping intervals into a single union interval — 2018-01-01 → 2021-12-01,
47 months (not the 70 months of the two intervals summed separately) — because
the numeric `YYYY-MM` strings are parsed as bare years, not year-months.
(The date strings contain no present-keyword, so `date.today()` is irrelevant;
it is fixed to 2026-10-12 here.) -/
theorem c1_theorem :
    (calculate_years_of_experience ⟨2026, 10, 12⟩
      [{ start_date := some "2018-01", end_date := some "2020-01" },
       { start_date := some "2019-06", end_date := some "2021-01" }]).intervals =
      [⟨⟨2018, 1, 1⟩, ⟨2021, 12, 1⟩, 47⟩] ∧
    (calculate_years_of_experience ⟨2026, 10, 12⟩
      [{ start_date := some "2018-01", end_date := some "2020-01" },
       { start_date := some "2019-06", end_date := some "2021-01" }]).total_months = 47 ∧
    (calculate_years_of_experience ⟨2026, 10, 12⟩
      [{ start_date := some "2018-01", end_date := some "2020-01" }]).total_months = 35 ∧
    (calculate_years_of_experience ⟨2026, 10, 12⟩
      [{ start_date := some "2019-06", end_date := some "2021-01" }]).total_months = 35 :=
  ⟨rfl, rfl, rfl, rfl⟩

/-- C2 (counterexample): a bare-year end date is interpreted as December 1 of
that year (`date(year, 12, 1)`), not December 31 as the claim states. -/
theorem c2_counterexample :
    parse_date ⟨2026, 10, 12⟩ (some "2020") true = some ⟨2020, 12, 1⟩ ∧
    (⟨2020, 12, 1⟩ : PDate) ≠ ⟨2020, 12, 31⟩ :=
  ⟨rfl, by decide⟩

/-- C2 (amended): an end-date string with a `(19|20)xx` year but no month name
and no present-keyword parses to December 1 of that year; and an experience with
a parseable start whose end date does not parse (in particular a missing end)
gets `today` as its end and a gap line appended to `missing_dates`. -/
theorem c2_theorem :
    (∀ (today : PDate) (s : String) (y : Nat),
      presentSearch ((pyStrip s.data).map pyLowerChar) = false →
      monthSearch ((pyStrip s.data).map pyLowerChar) = none →
      yearSearch ((pyStrip s.data).map pyLowerChar) = some y →
      parse_date today (some s) true = some ⟨y, 12, 1⟩)
    ∧ (∀ (today : PDate) (e : Experience) (rest : List Experience) (s₀ : PDate),
      parse_date today e.start_date false = some s₀ →
      parse_date today e.end_date true = none →
      (collect today (e :: rest)).missing.head? = some (msgMissingEnd e) ∧
      (pdLt today s₀ = false →
        collect today (e :: rest) =
          ⟨(s₀, today) :: (collect today rest).intervals,
           (if isInternship e then (collect today rest).intervalsNoInternship
            else (s₀, today) :: (collect today rest).intervalsNoInternship),
           msgMissingEnd e :: (collect today rest).missing⟩)) := by
  constructor
  · intro today s y hp hm hy
    simp [parse_date, parse_date_cl, hp, hm, hy]
  · intro today e rest s₀ hs he
    constructor
    · simp only [collect, collectStep, hs, he]
      split
      · simp
      · simp
    · intro hlt
      simp [collect, collectStep, hs, he, hlt]
      split <;> simp

/-- C2 (witness): concrete instantiation of both halves of `c2_theorem`. -/
theorem c2_witness :
    parse_date ⟨2026, 1, 2⟩ (some "2020") true = some ⟨2020, 12, 1⟩ ∧
    (collect ⟨2026, 1, 2⟩ [{ start_date := some "2019" }]).missing.head? =
      some (msgMissingEnd { start_date := some "2019" }) ∧
    collect ⟨2026, 1, 2⟩ [{ start_date := some "2019" }] =
      ⟨[(⟨2019, 1, 1⟩, ⟨2026, 1, 2⟩)], [(⟨2019, 1, 1⟩, ⟨2026, 1, 2⟩)],
       [msgMissingEnd { start_date := some "2019" }]⟩ := by
  refine ⟨c2_theorem.1 ⟨2026, 1, 2⟩ "2020" 2020 (by decide) (by decide) (by decide), ?_, ?_⟩
  · exact (c2_theorem.2 ⟨2026, 1, 2⟩ { start_date := some "2019" } [] ⟨2019, 1, 1⟩
      (by decide) rfl).1
  · have h := (c2_theorem.2 ⟨2026, 1, 2⟩ { start_date := some "2019" } [] ⟨2019, 1, 1⟩
      (by decide) rfl).2 (by decide)
    simpa [collect, isInternship] using h

/-- C6: the calculator never fails on an experience list — an experience whose
start does not parse, or whose parsed end precedes its parsed start, contributes
no interval but prepends exactly its descriptive line to `missing_dates`, and the
remaining experiences produce the same intervals and month total as without it. -/
theorem c6_theorem :
    ∀ (today : PDate) (e : Experience) (rest : List Experience),
    (parse_date today e.start_date false = none →
      (calculate_years_of_experience today (e :: rest)).intervals =
        (calculate_years_of_experience today rest).intervals ∧
      (calculate_years_of_experience today (e :: rest)).total_months =
        (calculate_years_of_experience today rest).total_months ∧
      (calculate_years_of_experience today (e :: rest)).missing_dates =
        msgMissingStart e :: (calculate_years_of_experience today rest).missing_dates)
    ∧ (∀ s₀ e₀ : PDate, parse_date today e.start_date false = some s₀ →
      parse_date today e.end_date true = some e₀ → pdLt e₀ s₀ = true →
      (calculate_years_of_experience today (e :: rest)).intervals =
        (calculate_years_of_experience today rest).intervals ∧
      (calculate_years_of_experience today (e :: rest)).total_months =
        (calculate_years_of_experience today rest).total_months ∧
      (calculate_years_of_experience today (e :: rest)).missing_dates =
        msgEndBeforeStart e :: (calculate_years_of_experience today rest).missing_dates) := by
  intro today e rest
  constructor
  · intro h
    have hc : collect today (e :: rest) =
        ⟨(collect today rest).intervals, (collect today rest).intervalsNoInternship,
         msgMissingStart e :: (collect today rest).missing⟩ := by
      simp [collect, collectStep, h]
    refine ⟨?_, ?_, ?_⟩ <;> simp [calculate_years_of_experience, hc]
  · intro s₀ e₀ hs he hlt
    have hc : collect today (e :: rest) =
        ⟨(collect today rest).intervals, (collect today rest).intervalsNoInternship,
         msgEndBeforeStart e :: (collect today rest).missing⟩ := by
      simp [collect, collectStep, hs, he, hlt]
    refine ⟨?_, ?_, ?_⟩ <;> simp [calculate_years_of_experience, hc]

/-- C6 (witness): concrete instantiation of both halves of `c6_theorem`. -/
theorem c6_witness :
    (calculate_years_of_experience ⟨2026, 1, 2⟩ [{ position := some "Dev" }]).missing_dates =
      msgMissingStart { position := some "Dev" } ::
        (calculate_years_of_experience ⟨2026, 1, 2⟩ []).missing_dates ∧
    (calculate_years_of_experience ⟨2026, 1, 2⟩
        [{ start_date := some "2020", end_date := some "2018" }]).missing_dates =
      msgEndBeforeStart { start_date := some "2020", end_date := some "2018" } ::
        (calculate_years_of_experience ⟨2026, 1, 2⟩ []).missing_dates := by
  refine ⟨((c6_theorem ⟨2026, 1, 2⟩ { position := some "Dev" } []).1 rfl).2.2, ?_⟩
  exact ((c6_theorem ⟨2026, 1, 2⟩ { start_date := some "2020", end_date := some "2018" } []).2
    ⟨2020, 1, 1⟩ ⟨2018, 12, 1⟩ (by decide) (by decide) (by decide)).2.2

end DurationClaims

/-! ### Claim C3: confidence and level ranges -/

section RangeClaims

attribute [local semireducible] Rat.mul Rat.inv Rat.add Rat.sub

/-- All numeric levels of `LANGUAGE_LEVEL_MAP` lie in `[0, 5]`. -/
theorem language_level_map_bounds : ∀ kv ∈ LANGUAGE_LEVEL_MAP, (0 : ℚ) ≤ kv.2 ∧ kv.2 ≤ 5 := by
  decide

/-- `dictGet` over the level map with an in-range default stays in `[0, 5]`. -/
theorem dictGet_level_bounds (key : String) :
    (0 : ℚ) ≤ dictGet LANGUAGE_LEVEL_MAP key 3 ∧ dictGet LANGUAGE_LEVEL_MAP key 3 ≤ 5 := by
  unfold dictGet
  cases hf : LANGUAGE_LEVEL_MAP.find? (fun kv => kv.1 = key) with
  | some kv => exact language_level_map_bounds kv (List.mem_of_find?_eq_some hf)
  | none => norm_num

/-- `_detect_level` returns a level in `[0, 5]` and a confidence in `[0, 1]`. -/
theorem detect_level_bounds (context : String) :
    (0 ≤ (detect_level context).1 ∧ (detect_level context).1 ≤ 5) ∧
    (0 ≤ (detect_level context).2.2 ∧ (detect_level context).2.2 ≤ 1) := by
  simp only [detect_level]
  split
  · exact ⟨dictGet_level_bounds _, by norm_num⟩
  · split
    · next kv hf =>
      obtain ⟨a, ha, hfa⟩ := List.exists_of_findSome?_eq_some hf
      obtain rfl : a = kv := by
        split at hfa
        · exact Option.some.inj hfa
        · exact absurd hfa (by simp)
      have hmem : a ∈ LANGUAGE_LEVEL_MAP := by
        rw [sortedLevelItems] at ha
        exact (List.perm_insertionSort _ LANGUAGE_LEVEL_MAP).subset ha
      exact ⟨language_level_map_bounds a hmem, by norm_num⟩
    · exact ⟨⟨le_refl 0, by norm_num⟩, by norm_num⟩

/-- Every hit produced by the per-line scan has in-range level and confidence. -/
theorem langHitsOfLine_bounds (line : List Char) :
    ∀ h ∈ langHitsOfLine line,
      (0 ≤ h.level ∧ h.level ≤ 5) ∧ (0 ≤ h.confidence ∧ h.confidence ≤ 1) := by
  intro h hm
  simp only [langHitsOfLine] at hm
  split at hm
  · simp at hm
  · obtain ⟨kv, _, heq⟩ := List.mem_filterMap.mp hm
    split at heq
    · obtain rfl := Option.some.inj heq
      exact ⟨(detect_level_bounds _).1, (detect_level_bounds _).2⟩
    · exact absurd heq (by simp)

/-- In-range bound on a `Language` entity. -/
def LangOK (l : Language) : Prop :=
  0 ≤ l.level ∧ l.level ≤ 5 ∧ 0 ≤ l.confidence ∧ l.confidence ≤ 1

/-- In-range bound on a hit. -/
def HitOK (h : LangHit) : Prop :=
  (0 ≤ h.level ∧ h.level ≤ 5) ∧ (0 ≤ h.confidence ∧ h.confidence ≤ 1)

/-- A dictionary step preserves in-range entries when the hit is in range. -/
theorem langStep_bounds {acc : List Language} {h : LangHit}
    (hacc : ∀ l ∈ acc, LangOK l) (hh : HitOK h) :
    ∀ l ∈ langStep acc h, LangOK l := by
  intro l hl
  unfold langStep at hl
  split at hl
  · split at hl
    · obtain ⟨x, hx, hxe⟩ := List.mem_map.mp hl
      by_cases hn : x.name = h.name
      · have hle : l = mkReplacementLanguage h := by simpa [hn] using hxe.symm
        subst hle
        exact ⟨hh.1.1, hh.1.2, hh.2.1, hh.2.2⟩
      · have hle : l = x := by simpa [hn] using hxe.symm
        subst hle
        exact hacc l hx
    · exact hacc l hl
  · rcases List.mem_append.mp hl with hl | hl
    · exact hacc l hl
    · have hle : l = mkNewLanguage h := by simpa using hl
      subst hle
      unfold LangOK mkNewLanguage
      refine ⟨?_, ?_, ?_, ?_⟩ <;> simp only
      · split
        · linarith [hh.1.1]
        · norm_num
      · split
        · exact hh.1.2
        · norm_num
      · split
        · exact hh.2.1
        · norm_num
      · split
        · exact hh.2.2
        · norm_num

/-- Folding in-range hits over an in-range accumulator stays in range. -/
theorem foldLangHits_bounds (hits : List LangHit) :
    ∀ acc, (∀ h ∈ hits, HitOK h) → (∀ l ∈ acc, LangOK l) →
      ∀ l ∈ hits.foldl langStep acc, LangOK l := by
  induction hits with
  | nil => intro acc _ hacc; simpa using hacc
  | cons h t ih =>
    intro acc hh hacc
    simp only [List.foldl_cons]
    exact ih _ (fun x hx => hh x (List.mem_cons_of_mem h hx))
      (langStep_bounds hacc (hh h (List.mem_cons_self h t)))

/-- Every language entity returned by `extract_languages` has level in `[0, 5]`
and confidence in `[0, 1]`. -/
theorem extract_languages_bounds (text : String) :
    ∀ l ∈ extract_languages text, LangOK l := by
  intro l hl
  unfold extract_languages at hl
  have h1 : l ∈ List.insertionSort langLevelGe (foldLangHits (langHitsOf text)) :=
    (List.take_sublist 3 _).subset hl
  have h2 : l ∈ foldLangHits (langHitsOf text) := (List.mem_insertionSort langLevelGe).mp h1
  refine foldLangHits_bounds _ [] ?_ (by simp) l h2
  intro h hh
  unfold langHitsOf at hh
  obtain ⟨sub, hsub, hhsub⟩ := List.mem_flatten.mp hh
  obtain ⟨line, _, rfl⟩ := List.mem_map.mp hsub
  exact langHitsOfLine_bounds line h hhsub

/-- `mkSkill` / `mkTool` produce levels in 1–5 and confidences in `[0, 1]`. -/
theorem mkSkill_bounds (d : SkillAcc) :
    (1 ≤ (mkSkill d).level ∧ (mkSkill d).level ≤ 5) ∧
    (0 ≤ (mkSkill d).confidence ∧ (mkSkill d).confidence ≤ 1) ∧
    (1 ≤ (mkTool d).level ∧ (mkTool d).level ≤ 5) ∧
    (0 ≤ (mkTool d).confidence ∧ (mkTool d).confidence ≤ 1) := by
  have hl := compute_level_bounds d.score d.has_impact d.mentions
  have hcb := skillConfidence_bounds d.mentions d.has_impact
  exact ⟨hl, ⟨pyRound2_nonneg hcb.1, pyRound2_le_one hcb.2⟩, hl,
    ⟨pyRound2_nonneg hcb.1, pyRound2_le_one hcb.2⟩⟩

/-- `mkEducation` confidence lies in `[0, 1]`. -/
theorem mkEducation_confidence_bounds (entry : RawEduEntry) :
    0 ≤ (mkEducation entry).confidence ∧ (mkEducation entry).confidence ≤ 1 := by
  simp only [mkEducation]
  have h1 : 0 ≤ (match entry.years.max? with
      | some y => if y ≠ 0 then (1/4 : ℚ) else 0 | none => 0) ∧
      (match entry.years.max? with
      | some y => if y ≠ 0 then (1/4 : ℚ) else 0 | none => 0) ≤ 1/4 := by
    cases entry.years.max? with
    | some y => constructor <;> (simp only; split <;> norm_num)
    | none => norm_num
  have h2 : 0 ≤ (if degreeKeywordSearch entry.degree then (1/4 : ℚ) else 0) ∧
      (if degreeKeywordSearch entry.degree then (1/4 : ℚ) else 0) ≤ 1/4 := by
    split <;> norm_num
  exact ⟨pyRound2_nonneg (by linarith [h1.1, h2.1]), pyRound2_le_one (by linarith [h1.2, h2.2])⟩

/-- The experience confidence lies in `[0, 1]`. -/
theorem experienceConfidence_bounds (a b c : Bool) :
    0 ≤ experienceConfidence a b c ∧ experienceConfidence a b c ≤ 1 := by
  unfold experienceConfidence
  have h1 : 0 ≤ (if a then (1/5 : ℚ) else 0) ∧ (if a then (1/5 : ℚ) else 0) ≤ 1/5 := by
    split <;> norm_num
  have h2 : 0 ≤ (if b then (1/5 : ℚ) else 0) ∧ (if b then (1/5 : ℚ) else 0) ≤ 1/5 := by
    split <;> norm_num
  have h3 : 0 ≤ (if c then (1/10 : ℚ) else 0) ∧ (if c then (1/10 : ℚ) else 0) ≤ 1/10 := by
    split <;> norm_num
  exact ⟨pyRound2_nonneg (by linarith [h1.1, h2.1, h3.1]),
    pyRound2_le_one (by linarith [h1.2, h2.2, h3.2])⟩

/-- The name-extraction confidence tiers lie in `[0, 1]`. -/
theorem nameConfidence_bounds (p : Nat) : 0 ≤ nameConfidence p ∧ nameConfidence p ≤ 1 := by
  unfold nameConfidence
  split
  · norm_num
  · split <;> norm_num

/-- The duration-calculator confidence lies in `[0, 1]`. -/
theorem years_confidence_bounds (today : PDate) (exps : List Experience) :
    0 ≤ (calculate_years_of_experience today exps).confidence ∧
      (calculate_years_of_experience today exps).confidence ≤ 1 := by
  simp only [calculate_years_of_experience]
  set m := (collect today exps).missing with hm
  have hminq : 0 ≤ pyMinQ (1/2) ((m.length : ℚ) * (1/10)) := by
    refine pyMinQ_nonneg (by norm_num) ?_
    positivity
  have hconf : (if m ≠ [] then 1 - pyMinQ (1/2) ((m.length : ℚ) * (1/10)) else 1) ≤ 1 := by
    split
    · linarith
    · norm_num
  have hmax := pyMaxQ_nonneg_left
    (if m ≠ [] then 1 - pyMinQ (1/2) ((m.length : ℚ) * (1/10)) else 1)
  exact ⟨pyRound2_nonneg hmax.1, pyRound2_le_one (hmax.2 hconf)⟩

/-- C3: every entity confidence produced by the extractors lies in `[0, 1]`;
skill and tool levels are integers in 1–5; language levels lie in `[0, 5]`.
The skill/tool and education statements are quantified over every possible
accumulator / raw-entry state reaching the entity constructor, which covers
every input text. -/
theorem c3_theorem :
    (∀ d : SkillAcc,
      (1 ≤ (mkSkill d).level ∧ (mkSkill d).level ≤ 5) ∧
      (0 ≤ (mkSkill d).confidence ∧ (mkSkill d).confidence ≤ 1) ∧
      (1 ≤ (mkTool d).level ∧ (mkTool d).level ≤ 5) ∧
      (0 ≤ (mkTool d).confidence ∧ (mkTool d).confidence ≤ 1)) ∧
    (∀ entry : RawEduEntry,
      0 ≤ (mkEducation entry).confidence ∧ (mkEducation entry).confidence ≤ 1) ∧
    (∀ a b c : Bool, 0 ≤ experienceConfidence a b c ∧ experienceConfidence a b c ≤ 1) ∧
    (∀ p : Nat, 0 ≤ nameConfidence p ∧ nameConfidence p ≤ 1) ∧
    (∀ (text : String) (l : Language), l ∈ extract_languages text →
      0 ≤ l.level ∧ l.level ≤ 5 ∧ 0 ≤ l.confidence ∧ l.confidence ≤ 1) ∧
    (∀ (today : PDate) (exps : List Experience),
      0 ≤ (calculate_years_of_experience today exps).confidence ∧
        (calculate_years_of_experience today exps).confidence ≤ 1) :=
  ⟨mkSkill_bounds, mkEducation_confidence_bounds, experienceConfidence_bounds,
   nameConfidence_bounds, fun text l hl => extract_languages_bounds text l hl,
   years_confidence_bounds⟩

/-- C3 (witness): concrete instantiation of every half of `c3_theorem`,
including a concrete language entity obtained from a concrete text. -/
theorem c3_witness :
    (1 ≤ (mkSkill ⟨"Python", "hard", 16, 4, true, []⟩).level ∧
      (mkSkill ⟨"Python", "hard", 16, 4, true, []⟩).level ≤ 5) ∧
    (0 ≤ (mkEducation ⟨"Master", none, [2023], "Master"⟩).confidence ∧
      (mkEducation ⟨"Master", none, [2023], "Master"⟩).confidence ≤ 1) ∧
    (0 ≤ experienceConfidence true true false ∧ experienceConfidence true true false ≤ 1) ∧
    (0 ≤ nameConfidence 2 ∧ nameConfidence 2 ≤ 1) ∧
    (0 ≤ (Language.mk "Anglais" (7/2) (some "B2") (some "Anglais: B2") (19/20)).level ∧
      (Language.mk "Anglais" (7/2) (some "B2") (some "Anglais: B2") (19/20)).level ≤ 5 ∧
      0 ≤ (Language.mk "Anglais" (7/2) (some "B2") (some "Anglais: B2") (19/20)).confidence ∧
      (Language.mk "Anglais" (7/2) (some "B2") (some "Anglais: B2") (19/20)).confidence ≤ 1) ∧
    (0 ≤ (calculate_years_of_experience ⟨2026, 1, 2⟩ []).confidence ∧
      (calculate_years_of_experience ⟨2026, 1, 2⟩ []).confidence ≤ 1) :=
  ⟨(c3_theorem.1 ⟨"Python", "hard", 16, 4, true, []⟩).1,
   c3_theorem.2.1 ⟨"Master", none, [2023], "Master"⟩,
   c3_theorem.2.2.1 true true false,
   c3_theorem.2.2.2.1 2,
   c3_theorem.2.2.2.2.1 "Anglais: B2"
     (Language.mk "Anglais" (7/2) (some "B2") (some "Anglais: B2") (19/20)) (by decide),
   c3_theorem.2.2.2.2.2 ⟨2026, 1, 2⟩ []⟩

end RangeClaims

/-! ### Claims C4, C5, C7 -/

section RankingClaims

attribute [local semireducible] Rat.mul Rat.inv Rat.add Rat.sub

/-- Sorting then truncating yields a short, sorted list (shared helper). -/
theorem sortTake_le_sorted {α : Type} (r : α → α → Prop) [DecidableRel r]
    [IsTotal α r] [IsTrans α r] (n : Nat) (l : List α) :
    ((List.insertionSort r l).take n).length ≤ n ∧
      List.Sorted r ((List.insertionSort r l).take n) := by
  constructor
  · rw [List.length_take]
    exact min_le_left _ _
  · exact List.Pairwise.sublist (List.take_sublist n _) (List.sorted_insertionSort r l)

/-- C4: `extract_skills` returns at most 5 hard and 5 soft skills, each sorted by
score descending; `extract_top_tools` at most 5 tools sorted by score descending;
`extract_languages` at most 3 languages sorted by level descending.  The skill
and tool statements are quantified over every accumulator state the text scan
can produce, which covers every input text. -/
theorem c4_theorem :
    (∀ skill_data : List SkillAcc,
      (extract_skills_from skill_data).1.length ≤ 5 ∧
      (extract_skills_from skill_data).2.length ≤ 5 ∧
      List.Sorted skillScoreGe (extract_skills_from skill_data).1 ∧
      List.Sorted skillScoreGe (extract_skills_from skill_data).2) ∧
    (∀ tool_data : List SkillAcc,
      (extract_top_tools_from tool_data).length ≤ 5 ∧
      List.Sorted toolScoreGe (extract_top_tools_from tool_data)) ∧
    (∀ text : String,
      (extract_languages text).length ≤ 3 ∧
      List.Sorted langLevelGe (extract_languages text)) := by
  refine ⟨fun skill_data => ?_, fun tool_data => ?_, fun text => ?_⟩
  · have h1 := sortTake_le_sorted skillScoreGe 5
      ((skill_data.filter (fun d => d.category = "hard")).map mkSkill)
    have h2 := sortTake_le_sorted skillScoreGe 5
      ((skill_data.filter (fun d => ¬(d.category = "hard"))).map mkSkill)
    exact ⟨h1.1, h2.1, h1.2, h2.2⟩
  · have h := sortTake_le_sorted toolScoreGe 5
      ((tool_data.filter (fun d => ¬(d.mentions < 2 ∧ d.score < 4))).map mkTool)
    exact ⟨h.1, h.2⟩
  · have h := sortTake_le_sorted langLevelGe 3 (foldLangHits (langHitsOf text))
    exact ⟨h.1, h.2⟩

set_option maxRecDepth 40000 in
/-- The lowered hard-skill and tool taxonomies are disjoint. -/
theorem hard_tools_disjoint : ∀ s ∈ hardLower, s ∉ toolsLower := by decide

/-- C5: no name the scan loop of `extract_top_tools` can register — and hence no
entry of its output — has a lowered form present in both the hard-skill taxonomy
and the tool taxonomy: such terms are skipped by the scan (and in this data set
the two lowered taxonomies are in fact disjoint). -/
theorem c5_theorem :
    ∀ n ∈ toolScanNames, ¬(pyLowerS n ∈ hardLower ∧ pyLowerS n ∈ toolsLower) :=
  fun _ _ h => hard_tools_disjoint _ h.1 h.2

/-- C5 (witness): the docker tool name survives the scan filter and is in no
conflict. -/
theorem c5_witness :
    ¬(pyLowerS "docker" ∈ hardLower ∧ pyLowerS "docker" ∈ toolsLower) :=
  c5_theorem "docker" (by decide)

/-- C7: on {(Bachelor, 2019), (Master, 2021), (Master, 2023)} the last degree is
the 2023 Master — maximal (level, year) lexicographic key — and its level label
is re-derived from the degree text (the stale stored label "Bac+2 / DUT-BTS" of
the winning entry is ignored); the empty list yields `none`. -/
theorem c7_theorem :
    determine_last_degree
      [⟨some 2019, "Bachelor", none, none, "obtained", "Bachelor", 3/4⟩,
       ⟨some 2021, "Master", none, none, "obtained", "Master", 3/4⟩,
       ⟨some 2023, "Master", none, some "Bac+2 / DUT-BTS", "obtained", "Master", 3/4⟩] =
      some ⟨"Master", some "Bac+5 / Master-Ingénieur", none, some 2023, 3/4⟩ ∧
    determine_last_degree [] = none :=
  ⟨by decide, rfl⟩

end RankingClaims

/-! ### Claims C8, C9, C10 -/

section LanguageEducationClaims

attribute [local semireducible] Rat.mul Rat.inv Rat.add Rat.sub

/-- C8 (counterexample): a text containing the line "Anglais: B2" need not yield
the level-3.5 entry — here an earlier line resolves Anglais to C2 (level 5), and
the single returned entry has level 5, not 3.5. -/
theorem c8_counterexample :
    extract_languages "Anglais: C2\nAnglais: B2" =
      [⟨"Anglais", 5, some "C2", some "Anglais: C2", 19/20⟩] ∧
    (5 : ℚ) ≠ 7/2 := by
  exact ⟨by decide, by norm_num⟩

/-- C8 (amended): for the input text "Anglais: B2" — and generally when no other
scanned line resolves Anglais to a strictly higher level and the entry survives
the top-3 cut — `extract_languages` yields Language("Anglais", 3.5, "B2", 0.95);
the CEFR code takes priority over keyword phrases ("courant" alone would map to
level 4, but B2 on the same line wins). -/
theorem c8_theorem :
    extract_languages "Anglais: B2" =
      [⟨"Anglais", 7/2, some "B2", some "Anglais: B2", 19/20⟩] ∧
    extract_languages "Anglais: B2 courant" =
      [⟨"Anglais", 7/2, some "B2", some "Anglais: B2 courant", 19/20⟩] := by
  exact ⟨by decide, by decide⟩

/-- C9 (counterexample): an extracted education whose degree text contains an
in-progress keyword has status "en_cours" — not "in_progress" — so the claimed
iff and the claimed value set {obtained, in_progress} both fail. -/
theorem c9_counterexample :
    eduInProgressSearch "Master en cours" = true ∧
    (mkEducation ⟨"Master en cours", none, [], "Master en cours"⟩).status = "en_cours" ∧
    (mkEducation ⟨"Master en cours", none, [], "Master en cours"⟩).status ≠ "in_progress" ∧
    (mkEducation ⟨"Master en cours", none, [], "Master en cours"⟩).status ≠ "obtained" := by
  exact ⟨by decide, by decide, by decide, by decide⟩

/-- C9 (amended): for every raw entry, the built education's status is
"en_cours" iff an in-progress keyword (`en cours|in progress|ongoing|current`,
case-insensitive) occurs in the degree text, and the status is always one of
{"obtained", "en_cours"}. -/
theorem c9_theorem :
    ∀ entry : RawEduEntry,
      ((mkEducation entry).status = "en_cours" ↔ eduInProgressSearch entry.degree = true) ∧
      ((mkEducation entry).status = "en_cours" ∨ (mkEducation entry).status = "obtained") := by
  intro entry
  simp only [mkEducation]
  by_cases h : eduInProgressSearch entry.degree
  · simp [h]
  · simp [h]

/-- C10: in the `found_languages` accumulator, when every later hit for the same
canonical language has a detected level no greater than the first hit's, the
entry built from the first hit (level, label, evidence, confidence — with the
2.5/"Non spécifié"/0.3 default when no level was detected) survives all later
hits; and a dictionary step replaces an existing entry only when the new hit's
detected level is strictly greater than the stored level. -/
theorem c10_theorem :
    (∀ (h₁ : LangHit) (hs : List LangHit),
      (∀ h ∈ hs, h.name = h₁.name) → (∀ h ∈ hs, h.level ≤ h₁.level) →
      (foldLangHits (h₁ :: hs)).find? (fun l => l.name = h₁.name) =
        some (mkNewLanguage h₁))
    ∧ (∀ (found : List Language) (h : LangHit) (existing : Language),
      found.find? (fun l => l.name = h.name) = some existing →
      ¬(existing.level < h.level) → langStep found h = found) := by
  constructor
  · intro h₁ hs hn hl
    have key : ∀ (t : List LangHit) (acc : List Language),
        (∀ h ∈ t, h.name = h₁.name) → (∀ h ∈ t, h.level ≤ h₁.level) →
        acc.find? (fun l => l.name = h₁.name) = some (mkNewLanguage h₁) →
        (t.foldl langStep acc).find? (fun l => l.name = h₁.name) =
          some (mkNewLanguage h₁) := by
      intro t
      induction t with
      | nil => intro acc _ _ hf; simpa using hf
      | cons h rest ih =>
        intro acc hnm hlv hf
        have hname : h.name = h₁.name := hnm h (List.mem_cons_self h rest)
        have hlev : h.level ≤ h₁.level := hlv h (List.mem_cons_self h rest)
        have hnotlt : ¬((mkNewLanguage h₁).level < h.level) := by
          simp only [mkNewLanguage]
          split
          · exact not_lt.mpr hlev
          · push_neg
            have : ¬(0 < h₁.level) := by assumption
            linarith [hlev, not_lt.mp this]
        have hstep : langStep acc h = acc := by
          simp only [langStep, hname, hf]
          rw [if_neg hnotlt]
        rw [List.foldl_cons, hstep]
        exact ih acc (fun x hx => hnm x (List.mem_cons_of_mem h hx))
          (fun x hx => hlv x (List.mem_cons_of_mem h hx)) hf
    have hbase : langStep [] h₁ = [mkNewLanguage h₁] := by
      simp [langStep]
    have hfind : ([mkNewLanguage h₁]).find? (fun l => l.name = h₁.name) =
        some (mkNewLanguage h₁) := by
      simp [List.find?, mkNewLanguage]
    unfold foldLangHits
    rw [List.foldl_cons, hbase]
    exact key hs [mkNewLanguage h₁] hn hl hfind
  · intro found h existing hf hnot
    simp only [langStep, hf]
    rw [if_neg hnot]

/-- C10 (witness): a later, lower-level hit ("B2", 3.5) for the same language
does not displace the earlier, higher-level entry ("C2", 5). -/
theorem c10_witness :
    (foldLangHits [⟨"Anglais", 5, "C2", 19/20, "Anglais: C2"⟩,
                   ⟨"Anglais", 7/2, "B2", 19/20, "Anglais: B2"⟩]).find?
        (fun l => l.name = "Anglais") =
      some (mkNewLanguage ⟨"Anglais", 5, "C2", 19/20, "Anglais: C2"⟩) ∧
    langStep [mkNewLanguage ⟨"Anglais", 5, "C2", 19/20, "Anglais: C2"⟩]
        ⟨"Anglais", 7/2, "B2", 19/20, "Anglais: B2"⟩ =
      [mkNewLanguage ⟨"Anglais", 5, "C2", 19/20, "Anglais: C2"⟩] := by
  constructor
  · exact c10_theorem.1 ⟨"Anglais", 5, "C2", 19/20, "Anglais: C2"⟩
      [⟨"Anglais", 7/2, "B2", 19/20, "Anglais: B2"⟩] (by decide) (by decide)
  · exact c10_theorem.2 _ _ (mkNewLanguage ⟨"Anglais", 5, "C2", 19/20, "Anglais: C2"⟩)
      (by decide) (by decide)

end LanguageEducationClaims

end CV2DC
